import Mathlib

/-!
Shallow embedding of the RRT cloud-function backend (emergency-alert relay).

The embedding follows the current implementation in `src/unnamed/part_001`
(the Cloud Functions entry file): the Firestore-backed block list, the SOS
alert snapshot store (`sos_alerts` collection, one document per sender,
written with `set(..., {merge: true})`), the scheduled alert-expiration
sweep, the admin-management endpoints, and the `POST /sos` handler.

Modelling conventions:
- Firestore collections are association lists keyed by document id
  (`sender_id` for `sos_alerts` and `blocked_users`, email for `admins`).
- JavaScript string truthiness (`undefined`/`null`/`""` are falsy) is
  modelled by `jsTruthy` on `Option String`; `a || b` on strings is `strOr`.
- Server timestamps are integers (milliseconds since epoch), passed in as a
  `now` parameter.
- External effects are parameters: the outcome of the FCM `messaging().send`
  call is an `Except String String` (error message or message id), a
  Firestore write failure is a `Bool` flag, and a block-list lookup failure
  is a `Bool` flag.  Attempted fan-out sends are returned as an output list.
- Numeric GPS coordinates are rationals; the code never computes on them
  (they are only stored and serialized), so only their identity matters.
-/

namespace RRT

/-- JavaScript truthiness of an optional string: `undefined` and `""` are falsy. -/
def jsTruthy : Option String → Bool
  | none => false
  | some s => s ≠ ""

/-- JavaScript `a || b` for an optional string `a` with default `b`
(falls through on `undefined` and on the empty string). -/
def strOr : Option String → String → String
  | none, d => d
  | some s, d => if s = "" then d else s

/-- Feature flags from the source (`FEATURES` object). -/
structure Features where
  ENABLE_SOS_ALERT_SNAPSHOT : Bool
  BLOCKED_USERS : Bool
deriving DecidableEq, Repr

/-- The deployed flag values: both features enabled. -/
def FEATURES : Features :=
  { ENABLE_SOS_ALERT_SNAPSHOT := true, BLOCKED_USERS := true }

/-- The `SCHEDULE_CONFIG.ALERT_EXPIRATION_THRESHOLD_MS` value: one hour in
milliseconds. -/
def ALERT_EXPIRATION_THRESHOLD_MS : Int := 60 * 60 * 1000

/-- GPS coordinates as sent by the client (`location` request field). -/
structure Location where
  latitude : Rat
  longitude : Rat
  accuracy : Rat
deriving DecidableEq, Repr

/-- The `userInfo` object of a `POST /sos` request body.  All fields are
optional in JavaScript; `location` is the reporter's free-text location. -/
structure UserInfoReq where
  district : Option String
  name : Option String
  location : Option String
  phone : Option String
  mobile_number : Option String
  message : Option String
deriving DecidableEq, Repr

/-- The `userInfo` sub-object stored by `storeSOSAlert` (defaulted fields). -/
structure StoredUserInfo where
  name : String
  mobile_number : String
  message : String
deriving DecidableEq, Repr

/-- A document of the `sos_alerts` collection (document id = `sender_id`).
`timestamp` is the server timestamp of the last write. -/
structure AlertDoc where
  sender_id : String
  active : Bool
  timestamp : Option Int
  location : Option Location
  userInfo : Option StoredUserInfo
  district : Option String
  state : Option String
  expiredAt : Option Int
  expiredBy : Option String
deriving DecidableEq, Repr

/-- A document of the `blocked_users` collection (document id = sender id). -/
structure BlockEntry where
  blocked : Bool
  reason : String
  blockedBy : String
  blockedAt : Int
deriving DecidableEq, Repr

/-- The `sos_alerts` collection: a list of documents with unique ids. -/
abbrev AlertStore := List AlertDoc

/-- The `blocked_users` collection keyed by sender id. -/
abbrev BlockStore := List (String × BlockEntry)

/-- Firestore `.doc(sender_id).get()` on `sos_alerts`: first document whose
id equals `sender_id`. -/
def findDoc (store : AlertStore) (sender_id : String) : Option AlertDoc :=
  store.find? (fun d => d.sender_id == sender_id)

/-- Firestore `.doc(sender_id).set(data, {merge: true})`: replaces the
existing document through `f some` or creates one through `f none`. -/
def setMerge (store : AlertStore) (sender_id : String)
    (f : Option AlertDoc → AlertDoc) : AlertStore :=
  if store.any (fun d => d.sender_id == sender_id) then
    store.map (fun d => if d.sender_id == sender_id then f (some d) else d)
  else
    store ++ [f none]

/-- Translation of `isSenderBlocked` (part_001:42): true only if a `blocked_users` document
exists and its `blocked` field is `true`; a lookup failure is caught and
yields `false` (fail open). -/
def isSenderBlocked (blockStore : BlockStore) (lookupFails : Bool)
    (sender_id : String) : Bool :=
  if !FEATURES.BLOCKED_USERS then false
  else if lookupFails then false
  else
    match blockStore.find? (fun p => p.1 == sender_id) with
    | some p => p.2.blocked
    | none => false

/-- The stored `userInfo` object built by `storeSOSAlert` (part_001:89-93):
`name || 'Unknown'`, `phone || mobile_number || 'N/A'`, `message || ''`. -/
def mkStoredUserInfo (ui : UserInfoReq) : StoredUserInfo :=
  { name := strOr ui.name "Unknown"
    mobile_number := strOr ui.phone (strOr ui.mobile_number "N/A")
    message := strOr ui.message "" }

/-- Translation of `storeSOSAlert` (part_001:70-116).  `alertData` always carries
`sender_id`, `active` and a fresh server timestamp; `location`, `userInfo`,
`district` and `state` are included only when `active` and truthy.  The
document is written with `set(..., {merge: true})`, so fields absent from
`alertData` keep their previous values.  A write failure is caught and
reported as `false`; the store is then unchanged. -/
def storeSOSAlert (storageOk : Bool) (store : AlertStore) (now : Int)
    (sender_id : String) (active : Bool) (location : Option Location)
    (userInfo : Option UserInfoReq) (district : Option String)
    (state : Option String) : Bool × AlertStore :=
  if !FEATURES.ENABLE_SOS_ALERT_SNAPSHOT then (false, store)
  else if !storageOk then (false, store)
  else
    let incLocation : Option Location := if active then location else none
    let incUserInfo : Option StoredUserInfo :=
      if active then userInfo.map mkStoredUserInfo else none
    let incDistrict : Option String :=
      if active && jsTruthy district then district else none
    let incState : Option String :=
      if active && jsTruthy state then state else none
    (true, setMerge store sender_id (fun old =>
      { sender_id := sender_id
        active := active
        timestamp := some now
        location := incLocation.orElse (fun _ => old.bind (fun d => d.location))
        userInfo := incUserInfo.orElse (fun _ => old.bind (fun d => d.userInfo))
        district := incDistrict.orElse (fun _ => old.bind (fun d => d.district))
        state := incState.orElse (fun _ => old.bind (fun d => d.state))
        expiredAt := old.bind (fun d => d.expiredAt)
        expiredBy := old.bind (fun d => d.expiredBy) }))

/-- The per-document staleness test of the sweep (part_001:242-244):
the document has a timestamp and it precedes the threshold time. -/
def tsOld (thresholdTime : Int) (d : AlertDoc) : Bool :=
  match d.timestamp with
  | some t => t < thresholdTime
  | none => false

/-- A document qualifying for expiration: active and stale. -/
def staleActive (thresholdTime : Int) (d : AlertDoc) : Bool :=
  d.active && tsOld thresholdTime d

/-- The batch update applied to each qualifying document (part_001:247-251). -/
def expireUpdate (now : Int) (d : AlertDoc) : AlertDoc :=
  { d with active := false, expiredAt := some now,
           expiredBy := some "scheduled_job" }

/-- The summary object returned by `expireOldAlerts`. -/
structure ExpireResult where
  expired : Nat
  checked : Nat
  enabled : Bool
deriving DecidableEq, Repr

/-- Translation of `expireOldAlerts` (part_001:219-279): queries all documents with
`active == true`, marks those whose timestamp precedes
`now - ALERT_EXPIRATION_THRESHOLD_MS` as inactive with
`expiredAt`/`expiredBy = "scheduled_job"` in one batch, and never issues a
fan-out send.  Returns the summary, the updated store and the (empty) list
of attempted sends. -/
def expireOldAlerts (store : AlertStore) (now : Int) :
    ExpireResult × AlertStore × List String :=
  if !FEATURES.ENABLE_SOS_ALERT_SNAPSHOT then
    ({ expired := 0, checked := 0, enabled := false }, store, [])
  else
    let thresholdTime := now - ALERT_EXPIRATION_THRESHOLD_MS
    let actives := store.filter (fun d => d.active)
    let toExpire := actives.filter (tsOld thresholdTime)
    let newStore := store.map (fun d =>
      if staleActive thresholdTime d then expireUpdate now d else d)
    ({ expired := toExpire.length, checked := actives.length, enabled := true },
     newStore, [])

/-- The hardcoded super-admin allow-list (part_001:297-300). -/
def SUPER_ADMINS : List String :=
  ["shamanthknr@gmail.com", "karthik.dhanya11@gmail.com"]

/-- Translation of `isSuperAdmin` (part_001:377-379). -/
def isSuperAdmin (email : String) : Bool :=
  SUPER_ADMINS.contains email

/-- ASCII whitespace, standing in for the `\s` character class. -/
def isWsChar (c : Char) : Bool :=
  c = ' ' || c = '\t' || c = '\n' || c = '\r' || c = '\x0b' || c = '\x0c'

/-- JavaScript `str.split(sep)` for a one-character separator, over the
character list (`"".split(sep)` is `[""]`). -/
def splitOnChar (sep : Char) : List Char → List (List Char)
  | [] => [[]]
  | c :: rest =>
    if c = sep then [] :: splitOnChar sep rest
    else
      match splitOnChar sep rest with
      | g :: gs => (c :: g) :: gs
      | [] => [[c]]

/-- JavaScript `str.trim()`: strip whitespace from both ends. -/
def trimChars (l : List Char) : List Char :=
  ((l.dropWhile isWsChar).reverse.dropWhile isWsChar).reverse

/-- Test of the email regex `^[^\s@]+@[^\s@]+\.[^\s@]+$` (part_001:770):
exactly one `@`, a nonempty whitespace-free local part, and a domain part
that is whitespace-free and contains a dot that is neither its first nor
its last character. -/
def emailRegexTest (s : String) : Bool :=
  match splitOnChar '@' s.toList with
  | [a, b] =>
    !a.isEmpty && a.all (fun c => !isWsChar c) &&
    b.all (fun c => !isWsChar c) &&
    ((b.drop 1).dropLast.contains '.')
  | _ => false

/-- A document of the `admins` collection (document id = email). -/
structure AdminDoc where
  role : String
  assignedDistricts : List String
  active : Bool
  createdBy : String
deriving DecidableEq, Repr

/-- The state touched by admin management: the `admins` collection keyed by
email, and the set of Firebase Auth credentials (modelled by email). -/
structure AdminState where
  admins : List (String × AdminDoc)
  authUsers : List String
deriving DecidableEq, Repr

/-- Translation of `getAdmin` (part_001:365-372). -/
def getAdmin (st : AdminState) (email : String) : Option AdminDoc :=
  (st.admins.find? (fun p => p.1 == email)).map (fun p => p.2)

/-- Request body of `POST /admin/admins`. -/
structure CreateAdminBody where
  email : Option String
  password : Option String
  assignedDistricts : Option (List String)
deriving DecidableEq, Repr

/-- Handler of `POST /admin/admins` (part_001:755-844), after `authenticateUser` has
resolved the caller's email.  `requireSuperAdmin` runs first; then missing
fields (400), email format (400), the reserved super-admin check (400),
duplicate admin (409), a Firebase Auth creation failure (400, modelled by
`authCreateOk`), and finally the Auth credential and the `admins` document
are created.  Returns the HTTP status and the new state. -/
def createAdmin (caller : String) (authCreateOk : Bool) (st : AdminState)
    (body : CreateAdminBody) : Nat × AdminState :=
  if !SUPER_ADMINS.contains caller then (403, st)
  else if !jsTruthy body.email || !jsTruthy body.password then (400, st)
  else
    let email := body.email.getD ""
    if !emailRegexTest email then (400, st)
    else if isSuperAdmin email then (400, st)
    else if (getAdmin st email).isSome then (409, st)
    else if !authCreateOk then (400, st)
    else
      let adminData : AdminDoc :=
        { role := "admin"
          assignedDistricts := body.assignedDistricts.getD []
          active := true
          createdBy := caller }
      (200, { admins := st.admins ++ [(email, adminData)]
              authUsers := st.authUsers ++ [email] })

/-- Handler of `PUT /admin/admins/:email` (part_001:847-907): super admin only; a
super-admin target email is rejected with 400 before the existence check;
`assignedDistricts` and `active` are updated only when present in the body. -/
def updateAdmin (caller : String) (st : AdminState) (email : String)
    (assignedDistricts : Option (List String)) (active : Option Bool) :
    Nat × AdminState :=
  if !SUPER_ADMINS.contains caller then (403, st)
  else if isSuperAdmin email then (400, st)
  else
    match getAdmin st email with
    | none => (404, st)
    | some _ =>
      (200, { st with admins := st.admins.map (fun p =>
          if p.1 == email then
            (p.1, { p.2 with
                assignedDistricts := assignedDistricts.getD p.2.assignedDistricts
                active := active.getD p.2.active })
          else p) })

/-- Handler of `DELETE /admin/admins/:email` (part_001:910-964): super admin only; a
super-admin target email is rejected with 400 before the existence check; a
Firebase Auth deletion failure (`authDeleteOk = false`) is swallowed and the
Firestore document is deleted anyway. -/
def deleteAdmin (caller : String) (authDeleteOk : Bool) (st : AdminState)
    (email : String) : Nat × AdminState :=
  if !SUPER_ADMINS.contains caller then (403, st)
  else if isSuperAdmin email then (400, st)
  else
    match getAdmin st email with
    | none => (404, st)
    | some _ =>
      (200, { admins := st.admins.filter (fun p => p.1 ≠ email)
              authUsers :=
                if authDeleteOk then st.authUsers.filter (fun e => e ≠ email)
                else st.authUsers })

/-- A row of the `GET /admin/users` response. -/
structure UserRow where
  sender_id : String
  name : String
  mobile_number : String
  state : String
  district : String
  blocked : Bool
  blockedAt : Option Int
  blockedBy : Option String
  reason : Option String
deriving DecidableEq, Repr

/-- The district-scoped alert query of `GET /admin/users` (part_001:558-580):
a super admin sees every `sos_alerts` document; a regular admin must have an
active `admins` document (else 403) and, when `assignedDistricts` is
nonempty, the query is restricted with `where('district', 'in', ...)`. -/
def adminUsersVisibleAlerts (caller : String) (st : AdminState)
    (sosStore : AlertStore) : Except Nat AlertStore :=
  if isSuperAdmin caller then .ok sosStore
  else
    match getAdmin st caller with
    | none => .error 403
    | some doc =>
      if !doc.active then .error 403
      else
        let allowedDistricts := doc.assignedDistricts
        if allowedDistricts.length > 0 then
          .ok (sosStore.filter (fun d =>
            match d.district with
            | some x => allowedDistricts.contains x
            | none => false))
        else .ok sosStore

/-- Map-insert with overwrite semantics (`userMap.set(senderId, ...)`). -/
def userMapInsert (m : List UserRow) (r : UserRow) : List UserRow :=
  if m.any (fun x => x.sender_id == r.sender_id) then
    m.map (fun x => if x.sender_id == r.sender_id then r else x)
  else m ++ [r]

/-- The user-list construction of `GET /admin/users` (part_001:582-629):
one row per sender that has a name or mobile number, then the block status
of each sender merged in from the `blocked_users` documents with
`blocked == true`.  (The subsequent search filter, name sort and pagination
are functions of this list and are not modelled.) -/
def buildUsers (alerts : AlertStore) (blockStore : BlockStore) :
    List UserRow :=
  let base := alerts.foldl (fun m d =>
    let nm := match d.userInfo with | some u => u.name | none => ""
    let mob := match d.userInfo with | some u => u.mobile_number | none => ""
    if nm ≠ "" || mob ≠ "" then
      userMapInsert m
        { sender_id := d.sender_id
          name := if nm = "" then "Unknown" else nm
          mobile_number := if mob = "" then "N/A" else mob
          state := strOr d.state "Unknown"
          district := strOr d.district "Unknown"
          blocked := false
          blockedAt := none
          blockedBy := none
          reason := none }
    else m) []
  base.map (fun r =>
    match blockStore.find? (fun p => p.1 == r.sender_id && p.2.blocked) with
    | some p =>
      { r with blocked := true, blockedAt := some p.2.blockedAt,
               blockedBy := some p.2.blockedBy, reason := some p.2.reason }
    | none => r)

/-- Handler of `GET /admin/users` up to the unsorted merged user list: the visible
alerts determined by the caller's scope, turned into user rows. -/
def adminUsers (caller : String) (st : AdminState) (sosStore : AlertStore)
    (blockStore : BlockStore) : Except Nat (List UserRow) :=
  (adminUsersVisibleAlerts caller st sosStore).map
    (fun alerts => buildUsers alerts blockStore)

/-- A word character of the `\w` class: ASCII letter, digit or underscore. -/
def isWordChar (c : Char) : Bool :=
  c.isAlphanum || c = '_'

/-- Semantics of `replace(/\b\w/g, l => l.toUpperCase())`: uppercase each word character
that starts a word (is not preceded by a word character). -/
def capWords : List Char → Bool → List Char
  | [], _ => []
  | c :: rest, prevWord =>
    (if isWordChar c && !prevWord then c.toUpper else c) ::
      capWords rest (isWordChar c)

/-- The fallback location label built from the district
(part_001:1011, 1085): `district.replace(/_/g, ' ')` (a single-character
replacement, hence a map), then each word capitalized. -/
def districtPretty (district : String) : String :=
  ⟨capWords (district.toList.map (fun c => if c = '_' then ' ' else c)) false⟩

/-- The state derivation of the alert path (part_001:1086):
`userLocation.split(',').pop().trim().toUpperCase()`. -/
def deriveState (userLocation : String) : String :=
  ⟨(trimChars ((splitOnChar ',' userLocation.toList).getLast?.getD [])).map
      Char.toUpper⟩

/-- The body of a `POST /sos` request. -/
structure SOSRequest where
  sender_id : Option String
  sos_type : Option String
  location : Option Location
  userInfo : Option UserInfoReq
  timestamp : Option String
deriving DecidableEq, Repr

/-- An FCM message as handed to `messaging().send` (the platform delivery
hints — android/apns priority, sound, icon — are constants omitted here). -/
structure FCMMessage where
  topic : String
  notificationTitle : String
  notificationBody : String
  dataType : String
  dataSenderId : String
  dataDistrict : String
  dataLocation : Option Location
  dataTimestamp : String
  dataUserInfo : Option UserInfoReq
deriving DecidableEq, Repr

/-- The response of `POST /sos`, by status code and distinguishing payload. -/
inductive SOSResponse where
  | ok (message : String) (messageId : String) (senderId : String)
      (district : String) (topic : Option String)
  | badRequest (error : String)
  | forbidden (error : String) (message : String)
  | serverError (error : String) (message : String)
deriving DecidableEq, Repr

/-- Whether a response is the 200 success shape. -/
def SOSResponse.isOk : SOSResponse → Bool
  | .ok _ _ _ _ _ => true
  | _ => false

/-- Handler of `app.post('/sos')` (part_001:967-1165).  Control flow of the source:
required-fields validation (`sender_id`, `sos_type`, `location` — all three
unconditionally), then the block check, then `sos_type` validation, then the
stop or alert branch.  Each branch requires `userInfo.district`, builds the
FCM message, awaits `messaging().send` (a failure throws to the outer catch,
answering 500 with the error message, before any snapshot write), and only
then calls `storeSOSAlert` (whose own failure is swallowed).  Returns the
response, the updated `sos_alerts` store and the attempted sends. -/
def postSOS (blockStore : BlockStore) (blockLookupFails : Bool)
    (fcm : Except String String) (storageOk : Bool) (now : Int)
    (store : AlertStore) (req : SOSRequest) :
    SOSResponse × AlertStore × List FCMMessage :=
  if !jsTruthy req.sender_id || !jsTruthy req.sos_type ||
      req.location.isNone then
    (.badRequest "Missing required fields", store, [])
  else
    let sender_id := req.sender_id.getD ""
    let sos_type := req.sos_type.getD ""
    if isSenderBlocked blockStore blockLookupFails sender_id then
      (.forbidden "Access denied"
        "Your account has been restricted from using this service", store, [])
    else if !(sos_type = "sos_alert" || sos_type = "stop") then
      (.badRequest "Invalid sos_type", store, [])
    else if sos_type = "stop" then
      let district0 := req.userInfo.bind (fun u => u.district)
      if !jsTruthy district0 then
        (.badRequest "Missing district in userInfo", store, [])
      else
        let district := district0.getD ""
        let userName := strOr (req.userInfo.bind (fun u => u.name)) "Someone"
        let userLocation :=
          strOr (req.userInfo.bind (fun u => u.location))
            (districtPretty district)
        let stopMessage : FCMMessage :=
          { topic := "district-" ++ district
            notificationTitle := "✅ Emergency Resolved"
            notificationBody :=
              "All good now. " ++ userName ++ " • " ++ userLocation
            dataType := "sos_resolved"
            dataSenderId := sender_id
            dataDistrict := district
            dataLocation := none
            dataTimestamp := strOr req.timestamp (toString now)
            dataUserInfo := none }
        match fcm with
        | .error e =>
          (.serverError "Failed to send SOS alert" e, store, [stopMessage])
        | .ok stopResponse =>
          let r := storeSOSAlert storageOk store now sender_id false
            none none none none
          (.ok "SOS alert stopped successfully" stopResponse sender_id
            district none, r.2, [stopMessage])
    else if sos_type = "sos_alert" then
      let district0 := req.userInfo.bind (fun u => u.district)
      if !jsTruthy district0 then
        (.badRequest "Missing district in userInfo", store, [])
      else
        let district := district0.getD ""
        let userName := strOr (req.userInfo.bind (fun u => u.name)) "Someone"
        let userLocation :=
          strOr (req.userInfo.bind (fun u => u.location))
            (districtPretty district)
        let state := deriveState userLocation
        let message : FCMMessage :=
          { topic := "district-" ++ district
            notificationTitle := "🚨 Emergency Alert"
            notificationBody :=
              "Help needed. " ++ userName ++ " • " ++ userLocation
            dataType := "sos_alert"
            dataSenderId := sender_id
            dataDistrict := district
            dataLocation := req.location
            dataTimestamp := strOr req.timestamp (toString now)
            dataUserInfo := req.userInfo }
        match fcm with
        | .error e =>
          (.serverError "Failed to send SOS alert" e, store, [message])
        | .ok response =>
          let r := storeSOSAlert storageOk store now sender_id true
            req.location req.userInfo (some district) (some state)
          (.ok "SOS alert sent successfully" response sender_id district
            (some ("district-" ++ district)), r.2, [message])
    else
      (.badRequest "Invalid sos_type", store, [])

/-! ## Helper lemmas -/

/-- Replacing every document with id `sid` through `f some` maps the first
hit of a lookup to `f (some hit)`. -/
theorem find?_map_replace (sid : String) (f : Option AlertDoc → AlertDoc)
    (hf : ∀ o, (f o).sender_id = sid) :
    ∀ (store : AlertStore) (d0 : AlertDoc),
      store.find? (fun d => d.sender_id == sid) = some d0 →
      (store.map (fun d => if d.sender_id == sid then f (some d) else d)).find?
          (fun d => d.sender_id == sid) = some (f (some d0))
  | [], d0, h => by simp [List.find?] at h
  | d :: rest, d0, h => by
    cases hd : (d.sender_id == sid) with
    | true =>
      simp only [List.find?_cons, hd] at h
      injection h with h
      subst h
      simp only [List.map_cons, if_pos hd, List.find?_cons, hf,
        beq_self_eq_true]
    | false =>
      simp only [List.find?_cons, hd] at h
      simp only [List.map_cons, hd, Bool.false_eq_true, if_false,
        List.find?_cons]
      exact find?_map_replace sid f hf rest d0 h

/-- Looking up `sid` after a merge-write to `sid` yields the written
document, built from the previous value of the lookup. -/
theorem findDoc_setMerge (store : AlertStore) (sid : String)
    (f : Option AlertDoc → AlertDoc) (hf : ∀ o, (f o).sender_id = sid) :
    findDoc (setMerge store sid f) sid = some (f (findDoc store sid)) := by
  unfold findDoc setMerge
  cases hfind : store.find? (fun d => d.sender_id == sid) with
  | none =>
    have hany : store.any (fun d => d.sender_id == sid) = false := by
      rw [List.any_eq_false]
      intro x hx
      simpa using List.find?_eq_none.mp hfind x hx
    rw [if_neg (by simp [hany]), List.find?_append, hfind]
    simp [List.find?, hf]
  | some d0 =>
    have hpred := List.find?_some hfind
    have hany : store.any (fun d => d.sender_id == sid) = true :=
      List.any_eq_true.mpr
        ⟨d0, List.mem_of_find?_eq_some hfind, by simpa using hpred⟩
    rw [if_pos hany]
    exact find?_map_replace sid f hf store d0 hfind

/-! ## Claim theorems -/

/-- C4: one sweep run at time `now` turns exactly the active rows whose
timestamp is older than `now` minus the staleness threshold into inactive
rows stamped `expiredAt = now`, `expiredBy = "scheduled_job"` (the
`expireUpdate`), leaves every other row unchanged, reports the stale-active
count as `expired` and the active count as `checked`, and performs zero
notification fan-out calls. -/
theorem sweep_expires_exactly_stale_rows (store : AlertStore) (now : Int) :
    (expireOldAlerts store now).2.2 = [] ∧
    (expireOldAlerts store now).2.1.length = store.length ∧
    (∀ (i : Nat) (d : AlertDoc), store[i]? = some d →
      (staleActive (now - ALERT_EXPIRATION_THRESHOLD_MS) d = true →
        (expireOldAlerts store now).2.1[i]? = some (expireUpdate now d)) ∧
      (staleActive (now - ALERT_EXPIRATION_THRESHOLD_MS) d = false →
        (expireOldAlerts store now).2.1[i]? = some d)) ∧
    (expireOldAlerts store now).1.expired =
      (store.filter (staleActive (now - ALERT_EXPIRATION_THRESHOLD_MS))).length ∧
    (expireOldAlerts store now).1.checked =
      (store.filter (fun d => d.active)).length := by
  unfold expireOldAlerts
  simp only [FEATURES, Bool.not_true, Bool.false_eq_true, if_false]
  refine ⟨trivial, List.length_map _ _, ?_, ?_, trivial⟩
  · intro i d hd
    constructor
    · intro hstale
      rw [List.getElem?_map, hd]
      simp [hstale]
    · intro hfresh
      rw [List.getElem?_map, hd]
      simp [hfresh]
  · rw [List.filter_filter]
    have hcomm : (fun a : AlertDoc =>
        tsOld (now - ALERT_EXPIRATION_THRESHOLD_MS) a && a.active) =
        staleActive (now - ALERT_EXPIRATION_THRESHOLD_MS) := by
      funext d
      unfold staleActive
      exact Bool.and_comm _ _
    rw [hcomm]

/-- C4 (witness): the sweep on a two-row store — one stale-active row, one
fresh-active row — expires exactly the stale one, silently. -/
theorem sweep_expires_exactly_stale_rows_witness :
    (expireOldAlerts
        [⟨"A", true, some 0, none, none, some "udupi", none, none, none⟩,
          ⟨"B", true, some 7000000, none, none, some "udupi", none, none,
            none⟩] 7000001).2.2 = [] ∧
    (expireOldAlerts
        [⟨"A", true, some 0, none, none, some "udupi", none, none, none⟩,
          ⟨"B", true, some 7000000, none, none, some "udupi", none, none,
            none⟩] 7000001).2.1.length = 2 ∧
    ((expireOldAlerts
        [⟨"A", true, some 0, none, none, some "udupi", none, none, none⟩,
          ⟨"B", true, some 7000000, none, none, some "udupi", none, none,
            none⟩] 7000001).2.1[0]? =
      some ⟨"A", false, some 0, none, none, some "udupi", none, some 7000001,
        some "scheduled_job"⟩) ∧
    ((expireOldAlerts
        [⟨"A", true, some 0, none, none, some "udupi", none, none, none⟩,
          ⟨"B", true, some 7000000, none, none, some "udupi", none, none,
            none⟩] 7000001).2.1[1]? =
      some ⟨"B", true, some 7000000, none, none, some "udupi", none, none,
        none⟩) ∧
    (expireOldAlerts
        [⟨"A", true, some 0, none, none, some "udupi", none, none, none⟩,
          ⟨"B", true, some 7000000, none, none, some "udupi", none, none,
            none⟩] 7000001).1.expired = 1 := by
  have h := sweep_expires_exactly_stale_rows
    [⟨"A", true, some 0, none, none, some "udupi", none, none, none⟩,
      ⟨"B", true, some 7000000, none, none, some "udupi", none, none, none⟩]
    7000001
  refine ⟨h.1, h.2.1, ?_, ?_, ?_⟩
  · exact (h.2.2.1 0 _ rfl).1 (by decide)
  · exact (h.2.2.1 1 _ rfl).2 (by decide)
  · rw [h.2.2.2.1]
    decide

/-- C5: `isSenderBlocked` with a working lookup returns true exactly when a
`blocked_users` record exists for the sender with `blocked = true`; when the
lookup fails it returns false (fails open); and consequently a `POST /sos`
request under a failing lookup is never answered 403 Forbidden. -/
theorem isSenderBlocked_iff_and_fails_open (bs : BlockStore) (sid : String) :
    (isSenderBlocked bs false sid = true ↔
      ∃ e : BlockEntry, bs.find? (fun p => p.1 == sid) = some (sid, e) ∧
        e.blocked = true) ∧
    isSenderBlocked bs true sid = false ∧
    ∀ (fcm : Except String String) (storageOk : Bool) (now : Int)
      (store : AlertStore) (req : SOSRequest) (er ms : String),
      (postSOS bs true fcm storageOk now store req).1 ≠
        SOSResponse.forbidden er ms := by
  have hopen : ∀ s, isSenderBlocked bs true s = false := by
    intro s
    unfold isSenderBlocked
    simp [FEATURES]
  refine ⟨?_, hopen sid, ?_⟩
  · constructor
    · intro h
      unfold isSenderBlocked at h
      simp only [FEATURES, Bool.not_true, Bool.false_eq_true, if_false] at h
      cases hf : bs.find? (fun p => p.1 == sid) with
      | none => rw [hf] at h; exact absurd h (by simp)
      | some p =>
        rw [hf] at h
        have hpred := List.find?_some hf
        have h1 : p.1 = sid := by simpa using hpred
        refine ⟨p.2, ?_, h⟩
        cases p
        simp_all
    · rintro ⟨e, hf, hb⟩
      unfold isSenderBlocked
      simp [FEATURES, hf, hb]
  · intro fcm storageOk now store req er ms
    unfold postSOS
    simp only [hopen, Bool.false_eq_true, if_false]
    repeat' split
    all_goals simp

/-- C5 (witness): the equivalence and the fail-open behaviour at a concrete
one-entry block store. -/
theorem isSenderBlocked_iff_and_fails_open_witness :
    (isSenderBlocked [("A", ⟨true, "abuse", "admin", 0⟩)] false "A" = true ↔
      ∃ e : BlockEntry,
        [("A", (⟨true, "abuse", "admin", 0⟩ : BlockEntry))].find?
            (fun p => p.1 == "A") = some ("A", e) ∧
        e.blocked = true) ∧
    isSenderBlocked [("A", ⟨true, "abuse", "admin", 0⟩)] true "A" = false ∧
    ∀ (fcm : Except String String) (storageOk : Bool) (now : Int)
      (store : AlertStore) (req : SOSRequest) (er ms : String),
      (postSOS [("A", ⟨true, "abuse", "admin", 0⟩)] true fcm storageOk now
          store req).1 ≠ SOSResponse.forbidden er ms :=
  isSenderBlocked_iff_and_fails_open [("A", ⟨true, "abuse", "admin", 0⟩)] "A"

/-- C6 (counterexample): the spec's stop scenario — `sender_id`,
`sos_type = "stop"`, a `userInfo` with non-empty district, but no
`location` — is answered 400 "Missing required fields", not 200. -/
theorem stop_without_location_rejected_cex :
    (postSOS [] false (.ok "mid") true 1700000000000 []
        ⟨some "A", some "stop", none,
          some ⟨some "udupi", none, none, none, none, none⟩, none⟩).1 =
      SOSResponse.badRequest "Missing required fields" := rfl

/-- C6 (amended): `location` is required for every `POST /sos` request,
stop requests included: any request without it — whatever the `sos_type`
and `userInfo` — fails with 400 "Missing required fields", the store is
unchanged and nothing is sent. -/
theorem missing_location_always_400 (bs : BlockStore) (lf : Bool)
    (fcm : Except String String) (storageOk : Bool) (now : Int)
    (store : AlertStore) (req : SOSRequest) (h : req.location = none) :
    postSOS bs lf fcm storageOk now store req =
      (SOSResponse.badRequest "Missing required fields", store, []) := by
  unfold postSOS
  simp [h]

/-- C6 (amended, witness): the concrete location-free stop request is
rejected with 400. -/
theorem missing_location_always_400_witness :
    (⟨some "A", some "stop", none,
        some ⟨some "udupi", none, none, none, none, none⟩,
        none⟩ : SOSRequest).location = none ∧
    postSOS [] false (.ok "mid") true 0 []
        ⟨some "A", some "stop", none,
          some ⟨some "udupi", none, none, none, none, none⟩, none⟩ =
      (SOSResponse.badRequest "Missing required fields", [], []) :=
  ⟨rfl, missing_location_always_400 [] false (.ok "mid") true 0 [] _ rfl⟩

/-- C1 (counterexample): a blocked sender's well-formed stop request is
rejected 403 Forbidden — the block check runs before the `sos_type` branch,
so stop requests are gated too. -/
theorem blocked_stop_is_rejected_cex :
    (postSOS [("A", ⟨true, "abuse", "admin", 0⟩)] false (.ok "mid") true 100
        []
        ⟨some "A", some "stop", some ⟨13, 74, 10⟩,
          some ⟨some "udupi", none, none, none, none, none⟩, none⟩).1 =
      SOSResponse.forbidden "Access denied"
        "Your account has been restricted from using this service" := rfl

/-- C1 (amended): `POST /sos` consults the block list before inspecting
`sos_type`, so a stop request from a blocked sender — like any request from
a blocked sender that passes field validation — is rejected with 403, the
store is unchanged and nothing is sent. -/
theorem stop_requests_gated_by_block_check (bs : BlockStore) (lf : Bool)
    (fcm : Except String String) (storageOk : Bool) (now : Int)
    (store : AlertStore) (req : SOSRequest) (loc : Location)
    (hs : jsTruthy req.sender_id = true)
    (ht : req.sos_type = some "stop")
    (hl : req.location = some loc)
    (hb : isSenderBlocked bs lf (req.sender_id.getD "") = true) :
    postSOS bs lf fcm storageOk now store req =
      (SOSResponse.forbidden "Access denied"
        "Your account has been restricted from using this service", store,
        []) := by
  unfold postSOS
  simp [hs, ht, hl, hb, show jsTruthy (some "stop") = true from rfl]

/-- C1 (amended, witness): the concrete blocked stop request is rejected. -/
theorem stop_requests_gated_by_block_check_witness :
    jsTruthy (⟨some "A", some "stop", some ⟨13, 74, 10⟩,
        some ⟨some "udupi", none, none, none, none, none⟩,
        none⟩ : SOSRequest).sender_id = true ∧
    isSenderBlocked [("A", ⟨true, "abuse", "admin", 0⟩)] false "A" = true ∧
    postSOS [("A", ⟨true, "abuse", "admin", 0⟩)] false (.ok "mid") true 7 []
        ⟨some "A", some "stop", some ⟨13, 74, 10⟩,
          some ⟨some "udupi", none, none, none, none, none⟩, none⟩ =
      (SOSResponse.forbidden "Access denied"
        "Your account has been restricted from using this service", [], []) :=
  ⟨rfl, rfl,
    stop_requests_gated_by_block_check
      [("A", ⟨true, "abuse", "admin", 0⟩)] false (.ok "mid") true 7 []
      ⟨some "A", some "stop", some ⟨13, 74, 10⟩,
        some ⟨some "udupi", none, none, none, none, none⟩, none⟩
      ⟨13, 74, 10⟩ rfl rfl rfl rfl⟩

/-- C2 (counterexample): after a successful raise followed by a successful
stop, the stored row for the sender has `active = false` yet still carries
the raise's location and reporter payload — the deactivating write merges
only `sender_id`/`active`/`timestamp` and clears nothing. -/
theorem inactive_row_retains_payload_cex :
    (findDoc
        (postSOS [] false (.ok "m2") true 200
          (postSOS [] false (.ok "m1") true 100 []
            ⟨some "A", some "sos_alert", some ⟨13, 74, 10⟩,
              some ⟨some "udupi", some "Jane", some "Manipal, Karnataka",
                some "+91-1234", none, none⟩, some "1700000000000"⟩).2.1
          ⟨some "A", some "stop", some ⟨13, 74, 10⟩,
            some ⟨some "udupi", none, none, none, none, none⟩, none⟩).2.1
        "A").map (fun d => (d.active, d.location, d.userInfo)) =
      some (false, some ⟨13, 74, 10⟩, some ⟨"Jane", "+91-1234", ""⟩) := rfl

/-- C2 (amended): a write that flips a stored row to `active = false` — the
deactivating `storeSOSAlert` of a resolve, or a sweeper expiration — sets
`active := false` and a fresh timestamp (resp. the expiration stamps) but
preserves the previously stored location, reporter payload, district and
state; it does not remove them. -/
theorem deactivate_write_preserves_payload (store : AlertStore) (now : Int)
    (sid : String) (d : AlertDoc) (hfind : findDoc store sid = some d) :
    (findDoc (storeSOSAlert true store now sid false none none none
        none).2 sid =
      some { d with active := false, timestamp := some now }) ∧
    ∀ now2 : Int,
      ((expireOldAlerts store now2).2.1).map
          (fun x => (x.location, x.userInfo, x.district, x.state)) =
        store.map (fun x => (x.location, x.userInfo, x.district, x.state)) := by
  constructor
  · have hpred := List.find?_some hfind
    have hsid : d.sender_id = sid := by simpa using hpred
    unfold storeSOSAlert
    simp only [FEATURES, Bool.not_true, Bool.not_false, Bool.false_eq_true,
      if_false, Bool.true_eq_false, Bool.false_and, if_neg]
    rw [findDoc_setMerge store sid _ (fun o => rfl), hfind]
    cases d
    simp_all [Option.orElse]
  · intro now2
    unfold expireOldAlerts
    simp only [FEATURES, Bool.not_true, Bool.false_eq_true, if_false]
    rw [List.map_map]
    congr 1
    funext x
    by_cases hx : staleActive (now2 - ALERT_EXPIRATION_THRESHOLD_MS) x = true
    · simp [hx, expireUpdate]
    · simp [hx]

/-- C2 (amended, witness): deactivating a concrete one-row store keeps the
row's payload, and a sweep keeps every row's payload. -/
theorem deactivate_write_preserves_payload_witness :
    findDoc [⟨"A", true, some 100, some ⟨13, 74, 10⟩,
        some ⟨"Jane", "+91-1234", ""⟩, some "udupi", some "KARNATAKA", none,
        none⟩] "A" =
      some ⟨"A", true, some 100, some ⟨13, 74, 10⟩,
        some ⟨"Jane", "+91-1234", ""⟩, some "udupi", some "KARNATAKA", none,
        none⟩ ∧
    findDoc (storeSOSAlert true
        [⟨"A", true, some 100, some ⟨13, 74, 10⟩,
          some ⟨"Jane", "+91-1234", ""⟩, some "udupi", some "KARNATAKA",
          none, none⟩] 200 "A" false none none none none).2 "A" =
      some ⟨"A", false, some 200, some ⟨13, 74, 10⟩,
        some ⟨"Jane", "+91-1234", ""⟩, some "udupi", some "KARNATAKA", none,
        none⟩ :=
  ⟨rfl,
    (deactivate_write_preserves_payload
      [⟨"A", true, some 100, some ⟨13, 74, 10⟩,
        some ⟨"Jane", "+91-1234", ""⟩, some "udupi", some "KARNATAKA", none,
        none⟩] 200 "A"
      ⟨"A", true, some 100, some ⟨13, 74, 10⟩, some ⟨"Jane", "+91-1234", ""⟩,
        some "udupi", some "KARNATAKA", none, none⟩ rfl).1⟩

/-- C3 (counterexample): on a raise whose push send fails, the handler
answers 500 and the store still has no row for the sender — the send was
attempted (one fan-out call) before any snapshot write, and the failure
prevented the write, so the snapshot does not reflect the attempted
transition. -/
theorem send_failure_prevents_snapshot_cex :
    (postSOS [] false (.error "unavailable") true 100 []
        ⟨some "A", some "sos_alert", some ⟨13, 74, 10⟩,
          some ⟨some "udupi", some "Jane", some "Manipal, Karnataka",
            some "+91-1234", none, none⟩, some "1700000000000"⟩).1 =
      SOSResponse.serverError "Failed to send SOS alert" "unavailable" ∧
    (postSOS [] false (.error "unavailable") true 100 []
        ⟨some "A", some "sos_alert", some ⟨13, 74, 10⟩,
          some ⟨some "udupi", some "Jane", some "Manipal, Karnataka",
            some "+91-1234", none, none⟩, some "1700000000000"⟩).2.1 = [] ∧
    (postSOS [] false (.error "unavailable") true 100 []
        ⟨some "A", some "sos_alert", some ⟨13, 74, 10⟩,
          some ⟨some "udupi", some "Jane", some "Manipal, Karnataka",
            some "+91-1234", none, none⟩,
          some "1700000000000"⟩).2.2.length = 1 :=
  ⟨rfl, rfl, rfl⟩

/-- C3 (amended): in both the raise and the resolve path the fan-out send
is attempted before the snapshot write; when the send fails, the handler
answers 500 with the error message and the snapshot write is skipped — the
store is left unchanged, so the stored state does not reflect the attempted
transition. -/
theorem send_failure_skips_snapshot_write (bs : BlockStore) (lf : Bool)
    (storageOk : Bool) (now : Int) (store : AlertStore) (req : SOSRequest)
    (loc : Location) (e : String)
    (hs : jsTruthy req.sender_id = true)
    (ht : req.sos_type = some "stop" ∨ req.sos_type = some "sos_alert")
    (hl : req.location = some loc)
    (hb : isSenderBlocked bs lf (req.sender_id.getD "") = false)
    (hd : jsTruthy (req.userInfo.bind (fun u => u.district)) = true) :
    (postSOS bs lf (.error e) storageOk now store req).1 =
      SOSResponse.serverError "Failed to send SOS alert" e ∧
    (postSOS bs lf (.error e) storageOk now store req).2.1 = store ∧
    (postSOS bs lf (.error e) storageOk now store req).2.2.length = 1 := by
  rcases ht with h | h <;>
    (unfold postSOS
     simp [hs, h, hl, hb, hd, show jsTruthy (some "stop") = true from rfl,
       show jsTruthy (some "sos_alert") = true from rfl])

/-- C3 (amended, witness): the concrete failed-send stop request answers
500 and leaves the one-row store untouched. -/
theorem send_failure_skips_snapshot_write_witness :
    jsTruthy (⟨some "A", some "stop", some ⟨13, 74, 10⟩,
        some ⟨some "udupi", none, none, none, none, none⟩,
        none⟩ : SOSRequest).sender_id = true ∧
    isSenderBlocked [] false "A" = false ∧
    (postSOS [] false (.error "down") true 300
        [⟨"A", true, some 100, some ⟨13, 74, 10⟩,
          some ⟨"Jane", "+91-1234", ""⟩, some "udupi", some "KARNATAKA",
          none, none⟩]
        ⟨some "A", some "stop", some ⟨13, 74, 10⟩,
          some ⟨some "udupi", none, none, none, none, none⟩, none⟩).1 =
      SOSResponse.serverError "Failed to send SOS alert" "down" ∧
    (postSOS [] false (.error "down") true 300
        [⟨"A", true, some 100, some ⟨13, 74, 10⟩,
          some ⟨"Jane", "+91-1234", ""⟩, some "udupi", some "KARNATAKA",
          none, none⟩]
        ⟨some "A", some "stop", some ⟨13, 74, 10⟩,
          some ⟨some "udupi", none, none, none, none, none⟩, none⟩).2.1 =
      [⟨"A", true, some 100, some ⟨13, 74, 10⟩,
        some ⟨"Jane", "+91-1234", ""⟩, some "udupi", some "KARNATAKA", none,
        none⟩] := by
  have h := send_failure_skips_snapshot_write [] false true 300
    [⟨"A", true, some 100, some ⟨13, 74, 10⟩, some ⟨"Jane", "+91-1234", ""⟩,
      some "udupi", some "KARNATAKA", none, none⟩]
    ⟨some "A", some "stop", some ⟨13, 74, 10⟩,
      some ⟨some "udupi", none, none, none, none, none⟩, none⟩
    ⟨13, 74, 10⟩ "down" rfl (Or.inl rfl) rfl rfl rfl
  exact ⟨rfl, rfl, h.1, h.2.1⟩

/-- C7 (counterexample): a raise whose snapshot persistence fails is still
answered 200 with a message id, and the store stays empty — the storage
error is swallowed, not surfaced as a 500 StorageError. -/
theorem storage_failure_still_200_cex :
    (postSOS [] false (.ok "m1") false 100 []
        ⟨some "A", some "sos_alert", some ⟨13, 74, 10⟩,
          some ⟨some "udupi", some "Jane", some "Manipal, Karnataka",
            some "+91-1234", none, none⟩, some "1700000000000"⟩).1 =
      SOSResponse.ok "SOS alert sent successfully" "m1" "A" "udupi"
        (some "district-udupi") ∧
    (postSOS [] false (.ok "m1") false 100 []
        ⟨some "A", some "sos_alert", some ⟨13, 74, 10⟩,
          some ⟨some "udupi", some "Jane", some "Manipal, Karnataka",
            some "+91-1234", none, none⟩, some "1700000000000"⟩).2.1 = [] :=
  ⟨rfl, rfl⟩

/-- C7 (amended): `storeSOSAlert` catches its own persistence failure and
returns false, and the `/sos` handler ignores that result: with a working
push send, a raise or resolve whose snapshot write fails still answers 200
and leaves the store unchanged — the storage failure is logged and
swallowed, never surfaced to the caller. -/
theorem storage_failure_swallowed (bs : BlockStore) (lf : Bool)
    (mid : String) (now : Int) (store : AlertStore) (req : SOSRequest)
    (loc : Location)
    (hs : jsTruthy req.sender_id = true)
    (ht : req.sos_type = some "stop" ∨ req.sos_type = some "sos_alert")
    (hl : req.location = some loc)
    (hb : isSenderBlocked bs lf (req.sender_id.getD "") = false)
    (hd : jsTruthy (req.userInfo.bind (fun u => u.district)) = true) :
    (postSOS bs lf (.ok mid) false now store req).1.isOk = true ∧
    (postSOS bs lf (.ok mid) false now store req).2.1 = store := by
  rcases ht with h | h <;>
    (unfold postSOS storeSOSAlert
     simp [hs, h, hl, hb, hd, FEATURES, SOSResponse.isOk,
       show jsTruthy (some "stop") = true from rfl,
       show jsTruthy (some "sos_alert") = true from rfl])

/-- C7 (amended, witness): the concrete raise with failing persistence is
answered 200 and stores nothing. -/
theorem storage_failure_swallowed_witness :
    jsTruthy (⟨some "A", some "sos_alert", some ⟨13, 74, 10⟩,
        some ⟨some "udupi", some "Jane", some "Manipal, Karnataka",
          some "+91-1234", none, none⟩,
        some "1700000000000"⟩ : SOSRequest).sender_id = true ∧
    (postSOS [] false (.ok "m9") false 100 []
        ⟨some "A", some "sos_alert", some ⟨13, 74, 10⟩,
          some ⟨some "udupi", some "Jane", some "Manipal, Karnataka",
            some "+91-1234", none, none⟩,
          some "1700000000000"⟩).1.isOk = true ∧
    (postSOS [] false (.ok "m9") false 100 []
        ⟨some "A", some "sos_alert", some ⟨13, 74, 10⟩,
          some ⟨some "udupi", some "Jane", some "Manipal, Karnataka",
            some "+91-1234", none, none⟩,
          some "1700000000000"⟩).2.1 = [] := by
  have h := storage_failure_swallowed [] false "m9" 100 []
    ⟨some "A", some "sos_alert", some ⟨13, 74, 10⟩,
      some ⟨some "udupi", some "Jane", some "Manipal, Karnataka",
        some "+91-1234", none, none⟩, some "1700000000000"⟩
    ⟨13, 74, 10⟩ rfl (Or.inr rfl) rfl rfl rfl
  exact ⟨rfl, h.1, h.2⟩

/-- C8: on a successful raise that supplies a reporter free-text location,
the stored row's derived region (`state`) is exactly
`location.split(',').pop().trim().toUpperCase()` — the last comma-separated
token, trimmed and upper-cased; and on "Manipal, Karnataka" that derivation
is "KARNATAKA". -/
theorem raise_stores_derived_region (bs : BlockStore) (lf : Bool)
    (mid : String) (now : Int) (store : AlertStore) (req : SOSRequest)
    (loc : Location) (ui : UserInfoReq) (locStr : String)
    (hs : jsTruthy req.sender_id = true)
    (ht : req.sos_type = some "sos_alert")
    (hl : req.location = some loc)
    (hui : req.userInfo = some ui)
    (hd : jsTruthy ui.district = true)
    (hloc : ui.location = some locStr)
    (hne : locStr ≠ "")
    (hb : isSenderBlocked bs lf (req.sender_id.getD "") = false)
    (hderived : deriveState locStr ≠ "") :
    (findDoc (postSOS bs lf (.ok mid) true now store req).2.1
        (req.sender_id.getD "")).map (fun d => d.state) =
      some (some (deriveState locStr)) ∧
    deriveState "Manipal, Karnataka" = "KARNATAKA" := by
  refine ⟨?_, rfl⟩
  have hjt : jsTruthy (some (deriveState locStr)) = true := by
    simp [jsTruthy, hderived]
  unfold postSOS storeSOSAlert
  simp only [hs, ht, hl, hui, hb, hloc, hd, FEATURES]
  simp [strOr, hne, hjt, hd, hloc,
    show jsTruthy (some "sos_alert") = true from rfl, findDoc_setMerge]

/-- C8 (witness): the spec's end-to-end raise — sender "A", district
"udupi", reporter location "Manipal, Karnataka" — stores region
"KARNATAKA". -/
theorem raise_stores_derived_region_witness :
    deriveState "Manipal, Karnataka" ≠ "" ∧
    (findDoc (postSOS [] false (.ok "mid") true 100 []
        ⟨some "A", some "sos_alert", some ⟨13, 74, 10⟩,
          some ⟨some "udupi", some "Jane", some "Manipal, Karnataka",
            some "+91-1234", none, none⟩,
          some "1700000000000"⟩).2.1 "A").map (fun d => d.state) =
      some (some "KARNATAKA") := by
  have h := raise_stores_derived_region [] false "mid" 100 []
    ⟨some "A", some "sos_alert", some ⟨13, 74, 10⟩,
      some ⟨some "udupi", some "Jane", some "Manipal, Karnataka",
        some "+91-1234", none, none⟩, some "1700000000000"⟩
    ⟨13, 74, 10⟩
    ⟨some "udupi", some "Jane", some "Manipal, Karnataka", some "+91-1234",
      none, none⟩
    "Manipal, Karnataka" rfl rfl rfl rfl rfl rfl (by decide) rfl (by decide)
  exact ⟨by decide, h.1⟩

/-- C9: for every authenticated caller, the admin-management create, update
and delete operations aimed at an email on the super-admin allow-list fail
with 400 or 403 and leave both the `admins` collection and the Auth
credential set unchanged. -/
theorem superadmin_identity_immutable (caller : String) (st : AdminState)
    (body : CreateAdminBody) (email : String)
    (ads : Option (List String)) (act : Option Bool) (aco adel : Bool)
    (hmail : isSuperAdmin email = true)
    (hbody : body.email = some email) :
    (((createAdmin caller aco st body).1 = 400 ∨
        (createAdmin caller aco st body).1 = 403) ∧
      (createAdmin caller aco st body).2 = st) ∧
    (((updateAdmin caller st email ads act).1 = 400 ∨
        (updateAdmin caller st email ads act).1 = 403) ∧
      (updateAdmin caller st email ads act).2 = st) ∧
    (((deleteAdmin caller adel st email).1 = 400 ∨
        (deleteAdmin caller adel st email).1 = 403) ∧
      (deleteAdmin caller adel st email).2 = st) := by
  refine ⟨?_, ?_, ?_⟩
  · unfold createAdmin
    rw [hbody]
    simp only [Option.getD_some]
    repeat' split
    all_goals simp_all [hmail]
  · unfold updateAdmin
    repeat' split
    all_goals simp_all [hmail]
  · unfold deleteAdmin
    repeat' split
    all_goals simp_all [hmail]

/-- C9 (witness): a super admin targeting the other allow-listed email via
create, update and delete is refused with 400 and mutates nothing. -/
theorem superadmin_identity_immutable_witness :
    isSuperAdmin "karthik.dhanya11@gmail.com" = true ∧
    (((createAdmin "shamanthknr@gmail.com" true ⟨[], []⟩
        ⟨some "karthik.dhanya11@gmail.com", some "pw", none⟩).1 = 400 ∨
      (createAdmin "shamanthknr@gmail.com" true ⟨[], []⟩
        ⟨some "karthik.dhanya11@gmail.com", some "pw", none⟩).1 = 403) ∧
     (createAdmin "shamanthknr@gmail.com" true ⟨[], []⟩
        ⟨some "karthik.dhanya11@gmail.com", some "pw", none⟩).2 = ⟨[], []⟩) ∧
    (((updateAdmin "shamanthknr@gmail.com" ⟨[], []⟩
        "karthik.dhanya11@gmail.com" none none).1 = 400 ∨
      (updateAdmin "shamanthknr@gmail.com" ⟨[], []⟩
        "karthik.dhanya11@gmail.com" none none).1 = 403) ∧
     (updateAdmin "shamanthknr@gmail.com" ⟨[], []⟩
        "karthik.dhanya11@gmail.com" none none).2 = ⟨[], []⟩) ∧
    (((deleteAdmin "shamanthknr@gmail.com" true ⟨[], []⟩
        "karthik.dhanya11@gmail.com").1 = 400 ∨
      (deleteAdmin "shamanthknr@gmail.com" true ⟨[], []⟩
        "karthik.dhanya11@gmail.com").1 = 403) ∧
     (deleteAdmin "shamanthknr@gmail.com" true ⟨[], []⟩
        "karthik.dhanya11@gmail.com").2 = ⟨[], []⟩) :=
  ⟨by decide,
    superadmin_identity_immutable "shamanthknr@gmail.com" ⟨[], []⟩
      ⟨some "karthik.dhanya11@gmail.com", some "pw", none⟩
      "karthik.dhanya11@gmail.com" none none true true (by decide) rfl⟩

/-- C10: in `GET /admin/users` the district restriction applies only when
the regular admin's `assignedDistricts` is nonempty: an active regular
admin with an empty `assignedDistricts` list gets the user rows built from
every `sos_alerts` document, identical to what any super admin gets. -/
theorem empty_district_scope_sees_all (caller : String) (st : AdminState)
    (sosStore : AlertStore) (blockStore : BlockStore) (doc : AdminDoc)
    (hns : isSuperAdmin caller = false)
    (hdoc : getAdmin st caller = some doc)
    (hact : doc.active = true)
    (hempty : doc.assignedDistricts = []) :
    adminUsers caller st sosStore blockStore =
      .ok (buildUsers sosStore blockStore) ∧
    ∀ s, isSuperAdmin s = true →
      adminUsers s st sosStore blockStore =
        adminUsers caller st sosStore blockStore := by
  have hvis : adminUsersVisibleAlerts caller st sosStore = .ok sosStore := by
    unfold adminUsersVisibleAlerts
    simp [hns, hdoc, hact, hempty]
  constructor
  · unfold adminUsers
    rw [hvis]
    rfl
  · intro s hsup
    unfold adminUsers adminUsersVisibleAlerts
    simp [hsup, hns, hdoc, hact, hempty]

/-- C10 (witness): a concrete active regular admin with empty
`assignedDistricts` sees the same single-row user list a super admin
sees. -/
theorem empty_district_scope_sees_all_witness :
    isSuperAdmin "dist.admin@example.com" = false ∧
    adminUsers "dist.admin@example.com"
        ⟨[("dist.admin@example.com", ⟨"admin", [], true, "creator"⟩)], []⟩
        [⟨"A", true, some 100, some ⟨13, 74, 10⟩,
          some ⟨"Jane", "+91-1234", ""⟩, some "udupi", some "KARNATAKA",
          none, none⟩] [] =
      .ok (buildUsers
        [⟨"A", true, some 100, some ⟨13, 74, 10⟩,
          some ⟨"Jane", "+91-1234", ""⟩, some "udupi", some "KARNATAKA",
          none, none⟩] []) ∧
    adminUsers "shamanthknr@gmail.com"
        ⟨[("dist.admin@example.com", ⟨"admin", [], true, "creator"⟩)], []⟩
        [⟨"A", true, some 100, some ⟨13, 74, 10⟩,
          some ⟨"Jane", "+91-1234", ""⟩, some "udupi", some "KARNATAKA",
          none, none⟩] [] =
      adminUsers "dist.admin@example.com"
        ⟨[("dist.admin@example.com", ⟨"admin", [], true, "creator"⟩)], []⟩
        [⟨"A", true, some 100, some ⟨13, 74, 10⟩,
          some ⟨"Jane", "+91-1234", ""⟩, some "udupi", some "KARNATAKA",
          none, none⟩] [] := by
  have h := empty_district_scope_sees_all "dist.admin@example.com"
    ⟨[("dist.admin@example.com", ⟨"admin", [], true, "creator"⟩)], []⟩
    [⟨"A", true, some 100, some ⟨13, 74, 10⟩, some ⟨"Jane", "+91-1234", ""⟩,
      some "udupi", some "KARNATAKA", none, none⟩] []
    ⟨"admin", [], true, "creator"⟩ (by decide) rfl rfl rfl
  exact ⟨by decide, h.1, h.2 "shamanthknr@gmail.com" (by decide)⟩

end RRT
